import Mathlib

/-!
Shallow embedding of the blog backend (`src/server/app.py`, `src/server/models.py`).

The Flask/SQLAlchemy app is modelled as pure functions over an explicit
database state (`DB`), an explicit session state (`SessionState`) and a
JSON-like request body (`Dict`).  External libraries keep only the
behaviour the handlers rely on:

* `flask_bcrypt` is an abstract salted hash (`generate_password_hash`,
  `check_password_hash`) with the single property the app uses: checking
  a password against a hash succeeds exactly for the hashed password.
* `sqlalchemy_serializer`: `to_dict` serializes every mapped attribute
  (columns and relationships), removing only what `serialize_rules`
  excludes; a `hybrid_property` is not a mapped attribute and is never
  touched by serialization.  `DateTime` columns are abstracted to `Nat`
  timestamps.
* the database commit can be made to raise `IntegrityError` or
  `ValueError` through an explicit `Option DBExc` oracle argument, which
  stands for the exception (if any) raised inside a handler `try` block;
  a failed commit leaves the committed state unchanged.

An uncaught Python exception is the `Outcome.exn` constructor (Flask
turns it into a 500 response); a returned response is `Outcome.resp`.
Write handlers also report whether `db.session.rollback()` was called
(`WriteResult.rolledBack`).
-/

namespace Blog

/-- Python/JSON values as they appear in request bodies and serialized
dictionaries.  `vnone` is Python `None` / JSON `null`. -/
inductive PyVal where
  | vstr (s : String)
  | vint (n : Int)
  | vnone
deriving Repr, DecidableEq

/-- Python truthiness for the values above: empty string, zero and
`None` are falsy. -/
def PyVal.truthy : PyVal → Bool
  | .vstr s => !(s == "")
  | .vint n => !(n == 0)
  | .vnone => false

/-- A Python dict with string keys, as produced by `request.get_json()`
or by serialization. -/
abbrev Dict := List (String × PyVal)

/-- `d[k]` lookup returning `none` when the key is absent
(`d.get(k)` is `none`-or-value; `d[k]` on `none` is a `KeyError`). -/
def getKey? (d : Dict) (k : String) : Option PyVal :=
  (d.find? (fun p => p.1 == k)).map Prod.snd

/-- Python `k in d`. -/
def hasKey (d : Dict) (k : String) : Bool :=
  (getKey? d k).isSome

/-- Model of `flask_bcrypt.generate_password_hash` (decoded to text):
an abstract injective salted hash. -/
def generate_password_hash (p : String) : String :=
  "$2b$12$" ++ p

/-- Model of `flask_bcrypt.check_password_hash`: succeeds exactly when
the hash is the hash of the offered password. -/
def check_password_hash (h p : String) : Bool :=
  h == generate_password_hash p

/-- A row of the `users` table (`models.py`, class `User`).  The field
`storedPasswordHash` is the `_password_hash` column. -/
structure UserRec where
  id : Nat
  username : String
  storedPasswordHash : String
  avatar : String
deriving Repr, DecidableEq

/-- `User.DEFAULT_AVATAR` from `models.py`. -/
def User.DEFAULT_AVATAR : String :=
  "https://res.cloudinary.com/df3n8xhsq/image/upload/w_1000,c_fill,ar_1:1,g_auto,r_max,bo_5px_solid_red,b_rgb:262c35/v1744403231/bear_hh1n40.png"

/-- The `password_hash` hybrid property of `User`: reading it raises
`AttributeError` by design, never returning the hash. -/
def UserRec.password_hash_read (_ : UserRec) : Except String String :=
  Except.error "Password hash cannot be viewed"

/-- The `password_hash` setter of `User`: stores the bcrypt hash of the
given plaintext in the `_password_hash` column. -/
def UserRec.password_hash_set (u : UserRec) (password : String) : UserRec :=
  { u with storedPasswordHash := generate_password_hash password }

/-- A row of the `articles` table (`models.py`, class `Article`).
Columns fed directly from the request body keep their `PyVal` value;
`author` and `tag` are strings by construction of the only writer
(`CreateArticle.post`); `date` is the abstracted `server_default=now()`
timestamp. -/
structure ArticleRec where
  id : Nat
  author : String
  title : PyVal
  content : PyVal
  preview_text : PyVal
  preview_image : PyVal
  minutes_to_read : PyVal
  tag : String
  date : Nat
  user_id : Nat
deriving Repr, DecidableEq

/-- `Article.DEFAULT_PREVIEW_IMAGE` from `models.py`. -/
def Article.DEFAULT_PREVIEW_IMAGE : String :=
  "https://res.cloudinary.com/df3n8xhsq/image/upload/v1744458196/341-800x450_zeafvw.jpg"

/-- The committed relational state, plus the id/timestamp generators the
store supplies. -/
structure DB where
  users : List UserRec
  articles : List ArticleRec
  nextUserId : Nat
  nextArticleId : Nat
  now : Nat
deriving Repr, DecidableEq

/-- `User.query.get(uid)` / `User.query.filter(User.id == uid).first()`. -/
def DB.findUserById (db : DB) (uid : Nat) : Option UserRec :=
  db.users.find? (fun u => u.id == uid)

/-- `User.query.filter_by(username=un).first()`. -/
def DB.findUserByUsername (db : DB) (un : String) : Option UserRec :=
  db.users.find? (fun u => u.username == un)

/-- `Article.query.filter(Article.id == id).first()`. -/
def DB.findArticleById (db : DB) (aid : Nat) : Option ArticleRec :=
  db.articles.find? (fun a => a.id == aid)

/-- The signed-cookie session: `user_id` and `page_views`, each either
absent / set to `None` (`none`) or set to a value.  All reads in the
app go through `session.get`, which collapses absent and `None`. -/
structure SessionState where
  user_id : Option Nat
  page_views : Option Int
deriving Repr, DecidableEq

/-- Python truthiness of `session.get('user_id')`: `None` and `0` are
falsy. -/
def optNatTruthy : Option Nat → Bool
  | Option.none => false
  | some n => !(n == 0)

/-- Python falsiness of `session.get('page_views')`: `None` and `0`. -/
def optIntFalsy : Option Int → Bool
  | Option.none => true
  | some n => n == 0

/-- The two lines of `ShowArticle.get` that update the counter:
`session['page_views'] = 0 if not session.get('page_views') else
session.get('page_views')` followed by `session['page_views'] += 1`. -/
def nextPageViews (pv : Option Int) : Int :=
  (if optIntFalsy pv then 0 else pv.getD 0) + 1

/-- The column attributes of a serialized `User`.  `serialize_rules =
('-articles.user',)` excludes nothing here, so the `_password_hash`
column is included; the raising `password_hash` hybrid property is not
a mapped attribute and is absent. -/
def UserRec.columnPairs (u : UserRec) : Dict :=
  [("id", PyVal.vint u.id),
   ("username", PyVal.vstr u.username),
   ("_password_hash", PyVal.vstr u.storedPasswordHash),
   ("avatar", PyVal.vstr u.avatar)]

/-- The column attributes of a serialized `Article`. -/
def ArticleRec.columnPairs (a : ArticleRec) : Dict :=
  [("id", PyVal.vint a.id),
   ("author", PyVal.vstr a.author),
   ("title", a.title),
   ("content", a.content),
   ("preview_text", a.preview_text),
   ("preview_image", a.preview_image),
   ("minutes_to_read", a.minutes_to_read),
   ("tag", PyVal.vstr a.tag),
   ("date", PyVal.vint a.date),
   ("user_id", PyVal.vint a.user_id)]

/-- `User.to_dict()`: columns plus the `articles` relationship; each
related article is serialized without its `user` back-reference
(`serialize_rules = ('-articles.user',)`). -/
structure UserDict where
  pairs : Dict
  articles : List Dict
deriving Repr, DecidableEq

/-- `Article.to_dict()`: columns plus the `user` relationship (if any)
serialized without its `articles` back-reference (`serialize_rules =
('-user.articles',)`). -/
structure ArticleDict where
  pairs : Dict
  user : Option Dict
deriving Repr, DecidableEq

def UserRec.to_dict (db : DB) (u : UserRec) : UserDict :=
  { pairs := u.columnPairs,
    articles := (db.articles.filter (fun a => a.user_id == u.id)).map ArticleRec.columnPairs }

def ArticleRec.to_dict (db : DB) (a : ArticleRec) : ArticleDict :=
  { pairs := a.columnPairs,
    user := (db.findUserById a.user_id).map UserRec.columnPairs }

/-- A response a handler returns: a plain JSON dict body, a serialized
user or article, or an empty body, always with its status code. -/
inductive Resp where
  | jsonMsg (status : Nat) (body : Dict)
  | jsonUser (status : Nat) (u : UserDict)
  | jsonArticle (status : Nat) (a : ArticleDict)
  | emptyBody (status : Nat)
deriving Repr, DecidableEq

/-- A handler either returns a response or lets a Python exception
escape (which Flask reports as a 500 error). -/
inductive Outcome where
  | resp (r : Resp)
  | exn (name msg : String)
deriving Repr, DecidableEq

/-- The exception (if any) the database layer raises inside a handler
`try` block. -/
inductive DBExc where
  | integrityError (msg : String)
  | valueError (msg : String)
deriving Repr, DecidableEq

/-- Result of a write handler: outcome, final session, final committed
database state, and whether `db.session.rollback()` was called. -/
structure WriteResult where
  outcome : Outcome
  session : SessionState
  db : DB
  rolledBack : Bool
deriving Repr, DecidableEq

/-- `ClearSession.delete`: sets both session fields to `None` and
returns `{}, 204`. -/
def ClearSession.delete (_s : SessionState) : Resp × SessionState :=
  (Resp.jsonMsg 204 [], { user_id := Option.none, page_views := Option.none })

/-- `Logout.delete`: sets `user_id` to `None` and returns an empty 204. -/
def Logout.delete (s : SessionState) : Resp × SessionState :=
  (Resp.emptyBody 204, { s with user_id := Option.none })

/-- `ShowArticle.get` on `/articles/<int:id>`: resets a falsy counter to
0, increments it, and serves the article while the incremented counter
is at most 100; beyond that it returns 401.  When the lookup finds no
article, `article.to_dict()` is attribute access on `None` and raises
`AttributeError`. -/
def ShowArticle.get (s : SessionState) (db : DB) (id : Nat) :
    Outcome × SessionState :=
  let pv : Int := nextPageViews s.page_views
  let s2 : SessionState := { s with page_views := some pv }
  if pv ≤ 100 then
    match db.findArticleById id with
    | some article => (Outcome.resp (Resp.jsonArticle 200 (article.to_dict db)), s2)
    | Option.none =>
        (Outcome.exn "AttributeError"
          "\x27NoneType\x27 object has no attribute \x27to_dict\x27", s2)
  else
    (Outcome.resp (Resp.jsonMsg 401
      [("message", PyVal.vstr "Maximum pageview limit reached")]), s2)

/-- `CheckSession.get`: `User.query.filter(User.id ==
session.get('user_id')).first()`; a `None` session id compares as SQL
`NULL` and matches no row. -/
def CheckSession.get (s : SessionState) (db : DB) : Resp :=
  let user : Option UserRec :=
    match s.user_id with
    | Option.none => Option.none
    | some uid => db.findUserById uid
  match user with
  | some u => Resp.jsonUser 200 (u.to_dict db)
  | Option.none => Resp.jsonMsg 401 []

/-- `Login.post`: body key access first (a missing key is a
`KeyError`), then the falsy-credentials check, then lookup and bcrypt
verification; both failure modes share one 401 body.  Offering a
non-string password to bcrypt raises `TypeError` (modelled library
behaviour); a non-string username matches no row of the string
`username` column. -/
def Login.post (body : Dict) (s : SessionState) (db : DB) :
    Outcome × SessionState :=
  match getKey? body "username" with
  | Option.none => (Outcome.exn "KeyError" "username", s)
  | some username =>
    match getKey? body "password" with
    | Option.none => (Outcome.exn "KeyError" "password", s)
    | some password =>
      if !username.truthy || !password.truthy then
        (Outcome.resp (Resp.jsonMsg 400
          [("error", PyVal.vstr "Username and password are required")]), s)
      else
        let user : Option UserRec :=
          match username with
          | PyVal.vstr un => db.findUserByUsername un
          | _ => Option.none
        match user with
        | some u =>
          match password with
          | PyVal.vstr pw =>
            if check_password_hash u.storedPasswordHash pw then
              (Outcome.resp (Resp.jsonUser 200 (u.to_dict db)),
               { s with user_id := some u.id })
            else
              (Outcome.resp (Resp.jsonMsg 401
                [("Error", PyVal.vstr "Invalid credentials")]), s)
          | _ => (Outcome.exn "TypeError" "password must be a string", s)
        | Option.none =>
          (Outcome.resp (Resp.jsonMsg 401
            [("Error", PyVal.vstr "Invalid credentials")]), s)

/-- `SignUp.post`: key access (missing key is a `KeyError`), falsy
check, duplicate check, then the `try` block creating and committing
the user.  Only `ValueError` is caught, and the handler does not call
`db.session.rollback()`; an `IntegrityError` escapes.  Non-string
credentials reaching bcrypt raise `TypeError` (modelled library
behaviour). -/
def SignUp.post (body : Dict) (s : SessionState) (db : DB)
    (exc : Option DBExc) : WriteResult :=
  match getKey? body "username" with
  | Option.none => ⟨Outcome.exn "KeyError" "username", s, db, false⟩
  | some username =>
  match getKey? body "password" with
  | Option.none => ⟨Outcome.exn "KeyError" "password", s, db, false⟩
  | some password =>
  if !username.truthy || !password.truthy then
    ⟨Outcome.resp (Resp.jsonMsg 400
      [("Error", PyVal.vstr "Username and password are required")]), s, db, false⟩
  else
    let existing : Option UserRec :=
      match username with
      | PyVal.vstr un => db.findUserByUsername un
      | _ => Option.none
    if existing.isSome then
      ⟨Outcome.resp (Resp.jsonMsg 409
        [("Error", PyVal.vstr "Username already exists")]), s, db, false⟩
    else
      match exc with
      | some (DBExc.valueError m) =>
          ⟨Outcome.resp (Resp.jsonMsg 400 [("error", PyVal.vstr m)]), s, db, false⟩
      | some (DBExc.integrityError m) =>
          ⟨Outcome.exn "IntegrityError" m, s, db, false⟩
      | Option.none =>
        match username, password with
        | PyVal.vstr un, PyVal.vstr pw =>
          let u : UserRec :=
            { id := db.nextUserId, username := un,
              storedPasswordHash := generate_password_hash pw,
              avatar := User.DEFAULT_AVATAR }
          let db2 : DB :=
            { db with users := db.users ++ [u], nextUserId := db.nextUserId + 1 }
          ⟨Outcome.resp (Resp.jsonUser 201 (u.to_dict db2)),
           { s with user_id := some u.id }, db2, false⟩
        | _, _ => ⟨Outcome.exn "TypeError" "credentials must be strings", s, db, false⟩

/-- `allowed_tags` from `CreateArticle.post`. -/
def allowed_tags : List String := ["Product", "Engineering", "Design"]

/-- `required_fields` from `CreateArticle.post`. -/
def required_fields : List String :=
  ["title", "content", "preview_text", "minutes_to_read"]

/-- `not all(field in data for field in required_fields)`. -/
def missingRequired (body : Dict) : Bool :=
  !(required_fields.all (fun f => hasKey body f))

/-- `'tag' in data and data['tag'] not in allowed_tags`: membership in a
list of strings is string equality, so any non-string value (including
`None`) supplied under `tag` is not in the list. -/
def invalidTag (body : Dict) : Bool :=
  hasKey body "tag" &&
    !(match getKey? body "tag" with
      | some (PyVal.vstr t) => allowed_tags.contains t
      | _ => false)

/-- The `Article(**article_data)` row built in `CreateArticle.post`:
`author` is the session user, keys whose value is `None` are dropped
from `article_data`, so an absent (or dropped) `tag` takes the column
default `Engineering` and an absent/dropped `preview_image` takes
`DEFAULT_PREVIEW_IMAGE`.  When the tag key is present it already passed
validation, hence is one of the allowed strings. -/
def newArticle (body : Dict) (db : DB) (uid : Nat) (u : UserRec) : ArticleRec :=
  { id := db.nextArticleId,
    author := u.username,
    title := (getKey? body "title").getD PyVal.vnone,
    content := (getKey? body "content").getD PyVal.vnone,
    preview_text := (getKey? body "preview_text").getD PyVal.vnone,
    preview_image :=
      match getKey? body "preview_image" with
      | some v => if v == PyVal.vnone then PyVal.vstr Article.DEFAULT_PREVIEW_IMAGE else v
      | Option.none => PyVal.vstr Article.DEFAULT_PREVIEW_IMAGE,
    minutes_to_read := (getKey? body "minutes_to_read").getD PyVal.vnone,
    tag :=
      match getKey? body "tag" with
      | some (PyVal.vstr t) => t
      | _ => "Engineering",
    date := db.now,
    user_id := uid }

/-- `CreateArticle.post`: 401 on a falsy session `user_id`, 404 when the
id matches no user, 400 on missing required fields or an invalid tag,
then the `try` block; `IntegrityError` and `ValueError` are caught,
`db.session.rollback()` is called, and a 400 carries the raw message. -/
def CreateArticle.post (body : Dict) (s : SessionState) (db : DB)
    (exc : Option DBExc) : WriteResult :=
  if !(optNatTruthy s.user_id) then
    ⟨Outcome.resp (Resp.jsonMsg 401
      [("Error", PyVal.vstr "Unauthorized. Please log in")]), s, db, false⟩
  else
    let uid : Nat := s.user_id.getD 0
    match db.findUserById uid with
    | Option.none =>
        ⟨Outcome.resp (Resp.jsonMsg 404
          [("Error", PyVal.vstr "User not found")]), s, db, false⟩
    | some user =>
      if missingRequired body then
        ⟨Outcome.resp (Resp.jsonMsg 400
          [("Error", PyVal.vstr
            "Missing required fields: [\x27title\x27, \x27content\x27, \x27preview_text\x27, \x27minutes_to_read\x27]")]),
         s, db, false⟩
      else if invalidTag body then
        ⟨Outcome.resp (Resp.jsonMsg 400
          [("error", PyVal.vstr
            "Invalid tag. Allowed values: [\x27Product\x27, \x27Engineering\x27, \x27Design\x27]")]),
         s, db, false⟩
      else
        match exc with
        | some (DBExc.integrityError m) =>
            ⟨Outcome.resp (Resp.jsonMsg 400 [("Error", PyVal.vstr m)]), s, db, true⟩
        | some (DBExc.valueError m) =>
            ⟨Outcome.resp (Resp.jsonMsg 400 [("Error", PyVal.vstr m)]), s, db, true⟩
        | Option.none =>
          let a : ArticleRec := newArticle body db uid user
          let db2 : DB :=
            { db with articles := db.articles ++ [a],
                      nextArticleId := db.nextArticleId + 1 }
          ⟨Outcome.resp (Resp.jsonArticle 201 (a.to_dict db2)), s, db2, false⟩

/-! ## Concrete fixtures used by witnesses and counterexamples -/

/-- A fresh browser session: no `user_id`, no `page_views`. -/
def freshSession : SessionState :=
  { user_id := Option.none, page_views := Option.none }

/-- An empty store. -/
def emptyDB : DB :=
  { users := [], articles := [], nextUserId := 1, nextArticleId := 1, now := 0 }

/-- A user as `SignUp` would create it. -/
def aliceUser : UserRec :=
  { id := 1, username := "alice",
    storedPasswordHash := generate_password_hash "alicepw",
    avatar := User.DEFAULT_AVATAR }

/-- An article owned by `aliceUser`. -/
def demoArticle : ArticleRec :=
  { id := 1, author := "alice", title := PyVal.vstr "T",
    content := PyVal.vstr "C", preview_text := PyVal.vstr "P",
    preview_image := PyVal.vstr Article.DEFAULT_PREVIEW_IMAGE,
    minutes_to_read := PyVal.vint 5, tag := "Design", date := 0, user_id := 1 }

/-- A store holding `aliceUser` and `demoArticle`. -/
def demoDB : DB :=
  { users := [aliceUser], articles := [demoArticle],
    nextUserId := 2, nextArticleId := 2, now := 1 }

/-- A session logged in as `aliceUser`. -/
def aliceSession : SessionState :=
  { user_id := some 1, page_views := Option.none }

/-- A well-formed article-creation body without a `tag` key. -/
def createBody : Dict :=
  [("title", PyVal.vstr "T2"), ("content", PyVal.vstr "C2"),
   ("preview_text", PyVal.vstr "P2"), ("minutes_to_read", PyVal.vint 4)]

/-- A well-formed signup body. -/
def signupBody : Dict :=
  [("username", PyVal.vstr "bob"), ("password", PyVal.vstr "bobpw")]

/-! ## Claims -/

/-- C1 (amended): every call to `GET /articles/{id}` sets the session
counter to its incremented value (a falsy counter counts as 0) and
leaves `user_id` alone; a call whose incremented counter is at most 100
returns the serialized article with status 200 **when the id matches an
article** (a missing id instead raises an uncaught `AttributeError`);
a call whose incremented counter exceeds 100 returns 401 with the
message `Maximum pageview limit reached`; after `DELETE /clear` resets
the counter, the next view of an existing article succeeds with the
counter back at 1. -/
theorem C1_pageview_gating (s : SessionState) (db : DB) (id : Nat) :
    ((ShowArticle.get s db id).2.page_views = some (nextPageViews s.page_views)) ∧
    ((ShowArticle.get s db id).2.user_id = s.user_id) ∧
    (∀ a : ArticleRec, nextPageViews s.page_views ≤ 100 →
        db.findArticleById id = some a →
        (ShowArticle.get s db id).1 =
          Outcome.resp (Resp.jsonArticle 200 (a.to_dict db))) ∧
    (100 < nextPageViews s.page_views →
        (ShowArticle.get s db id).1 =
          Outcome.resp (Resp.jsonMsg 401
            [("message", PyVal.vstr "Maximum pageview limit reached")])) ∧
    (∀ a : ArticleRec, db.findArticleById id = some a →
        ShowArticle.get (ClearSession.delete s).2 db id =
          (Outcome.resp (Resp.jsonArticle 200 (a.to_dict db)),
           { user_id := Option.none, page_views := some 1 })) := by
  refine ⟨?_, ?_, ?_, ?_, ?_⟩
  · simp only [ShowArticle.get]
    split
    · split <;> rfl
    · rfl
  · simp only [ShowArticle.get]
    split
    · split <;> rfl
    · rfl
  · intro a hle hfind
    simp [ShowArticle.get, hle, hfind]
  · intro hgt
    have hnle : ¬ nextPageViews s.page_views ≤ 100 := not_le.mpr hgt
    simp [ShowArticle.get, hnle]
  · intro a hfind
    have hclear : (ClearSession.delete s).2 =
        { user_id := Option.none, page_views := Option.none } := rfl
    rw [hclear]
    simp [ShowArticle.get, nextPageViews, optIntFalsy, hfind]

/-- C1 witness: in a fresh session over `demoDB`, viewing article 1
increments the counter to 1 and returns the serialized article with
status 200. -/
theorem C1_pageview_gating_witness :
    (ShowArticle.get freshSession demoDB 1).1 =
      Outcome.resp (Resp.jsonArticle 200 (demoArticle.to_dict demoDB)) :=
  (C1_pageview_gating freshSession demoDB 1).2.2.1 demoArticle (by decide) (by rfl)

/-- C1 counterexample: in a fresh session over the empty store, the
incremented counter is 1 (at most 100), yet the call does not return a
200 response: it raises an uncaught `AttributeError`. -/
theorem C1_counterexample :
    nextPageViews freshSession.page_views ≤ 100 ∧
    (ShowArticle.get freshSession emptyDB 1).2.page_views = some 1 ∧
    (ShowArticle.get freshSession emptyDB 1).1 =
      Outcome.exn "AttributeError"
        "\x27NoneType\x27 object has no attribute \x27to_dict\x27" :=
  ⟨by decide, rfl, rfl⟩

/-- C2 (amended): the serialized user produced by `to_dict` (the body of
signup, login and check_session successes) **includes** the stored
bcrypt hash under the `_password_hash` key, because `serialize_rules =
('-articles.user',)` does not exclude that column; reading the
`password_hash` attribute does raise an access error rather than
returning the hash. -/
theorem C2_password_hash_exposure (db : DB) (u : UserRec) :
    ("_password_hash", PyVal.vstr u.storedPasswordHash) ∈ (u.to_dict db).pairs ∧
    u.password_hash_read = Except.error "Password hash cannot be viewed" := by
  constructor
  · simp [UserRec.to_dict, UserRec.columnPairs]
  · rfl

/-- C2 counterexample: a concrete signup whose 201 response carries the
stored bcrypt hash of the submitted password under `_password_hash`,
contradicting the claim that the hash is never included. -/
theorem C2_counterexample :
    (SignUp.post signupBody freshSession emptyDB Option.none).outcome =
      Outcome.resp (Resp.jsonUser 201
        { pairs := [("id", PyVal.vint 1), ("username", PyVal.vstr "bob"),
                    ("_password_hash", PyVal.vstr (generate_password_hash "bobpw")),
                    ("avatar", PyVal.vstr User.DEFAULT_AVATAR)],
          articles := [] }) ∧
    ("_password_hash", PyVal.vstr (generate_password_hash "bobpw")) ∈
      [("id", PyVal.vint 1), ("username", PyVal.vstr "bob"),
       ("_password_hash", PyVal.vstr (generate_password_hash "bobpw")),
       ("avatar", PyVal.vstr User.DEFAULT_AVATAR)] :=
  ⟨rfl, by simp⟩

/-- C3 (amended): for a session whose gate is not exceeded, `GET
/articles/{id}` with an id matching no article does **not** return a
success-with-null body: `article.to_dict()` is attribute access on
`None`, so the handler raises an uncaught `AttributeError` (surfacing
as a 500 error), and it does not return a 404 either. -/
theorem C3_missing_article_raises (s : SessionState) (db : DB) (id : Nat)
    (hgate : nextPageViews s.page_views ≤ 100)
    (hmiss : db.findArticleById id = Option.none) :
    (ShowArticle.get s db id).1 =
      Outcome.exn "AttributeError"
        "\x27NoneType\x27 object has no attribute \x27to_dict\x27" := by
  simp [ShowArticle.get, hgate, hmiss]

/-- C3 witness: concrete instance of the missing-article behavior. -/
theorem C3_missing_article_raises_witness :
    (ShowArticle.get freshSession emptyDB 2).1 =
      Outcome.exn "AttributeError"
        "\x27NoneType\x27 object has no attribute \x27to_dict\x27" :=
  C3_missing_article_raises freshSession emptyDB 2 (by decide) (by rfl)

/-- C3 counterexample: with the gate open, a lookup of an id matching no
article produces an uncaught exception outcome, not a 200 response (the
two differ at the outcome constructor). -/
theorem C3_counterexample :
    demoDB.findArticleById 7 = Option.none ∧
    (ShowArticle.get freshSession demoDB 7).1 =
      Outcome.exn "AttributeError"
        "\x27NoneType\x27 object has no attribute \x27to_dict\x27" :=
  ⟨rfl, rfl⟩

/-- Helper: `find?` over an append whose first part has no hit. -/
theorem find?_append_of_none {α : Type} (p : α → Bool) (l1 l2 : List α)
    (h : l1.find? p = Option.none) : (l1 ++ l2).find? p = l2.find? p := by
  induction l1 with
  | nil => simp
  | cons x xs ih =>
    by_cases hx : p x = true
    · rw [List.find?_cons_of_pos _ hx] at h
      exact absurd h (by simp)
    · rw [List.find?_cons_of_neg _ hx] at h
      rw [List.cons_append, List.find?_cons_of_neg _ hx]
      exact ih h

/-- Helper: a list on which `find?` misses has an empty `filter`. -/
theorem filter_eq_nil_of_find?_none {α : Type} (p : α → Bool) (l : List α)
    (h : l.find? p = Option.none) : l.filter p = [] := by
  induction l with
  | nil => rfl
  | cons x xs ih =>
    by_cases hx : p x = true
    · rw [List.find?_cons_of_pos _ hx] at h
      exact absurd h (by simp)
    · rw [List.find?_cons_of_neg _ hx] at h
      simp [List.filter_cons, hx, ih h]

/-- C4 (amended): only `POST /articles/create` performs an explicit
rollback when the commit raises `IntegrityError` or `ValueError`,
returning 400 with the raw message and an unchanged committed store.
`POST /signup` catches only `ValueError` and returns its 400 **without**
calling rollback, and it does not catch `IntegrityError` at all: that
exception escapes the handler (a 500), again without an explicit
rollback.  The committed store is unchanged in every failure case. -/
theorem C4_rollback_discipline
    (body sbody : Dict) (s ss : SessionState) (db sdb : DB) (m : String)
    (uid : Nat) (u : UserRec) (un pw : String)
    (h1 : s.user_id = some uid) (h2 : uid ≠ 0)
    (h3 : db.findUserById uid = some u)
    (h4 : missingRequired body = false) (h5 : invalidTag body = false)
    (g1 : getKey? sbody "username" = some (PyVal.vstr un))
    (g2 : getKey? sbody "password" = some (PyVal.vstr pw))
    (g3 : un ≠ "") (g4 : pw ≠ "")
    (g5 : sdb.findUserByUsername un = Option.none) :
    (CreateArticle.post body s db (some (DBExc.integrityError m)) =
      ⟨Outcome.resp (Resp.jsonMsg 400 [("Error", PyVal.vstr m)]), s, db, true⟩) ∧
    (CreateArticle.post body s db (some (DBExc.valueError m)) =
      ⟨Outcome.resp (Resp.jsonMsg 400 [("Error", PyVal.vstr m)]), s, db, true⟩) ∧
    (SignUp.post sbody ss sdb (some (DBExc.valueError m)) =
      ⟨Outcome.resp (Resp.jsonMsg 400 [("error", PyVal.vstr m)]), ss, sdb, false⟩) ∧
    (SignUp.post sbody ss sdb (some (DBExc.integrityError m)) =
      ⟨Outcome.exn "IntegrityError" m, ss, sdb, false⟩) := by
  have hau : optNatTruthy (some uid) = true := by simp [optNatTruthy, h2]
  refine ⟨?_, ?_, ?_, ?_⟩
  · simp [CreateArticle.post, h1, hau, h3, h4, h5]
  · simp [CreateArticle.post, h1, hau, h3, h4, h5]
  · simp [SignUp.post, g1, g2, PyVal.truthy, g3, g4, g5]
  · simp [SignUp.post, g1, g2, PyVal.truthy, g3, g4, g5]

/-- C4 witness: concrete instances of all four failure behaviors. -/
theorem C4_rollback_discipline_witness :
    (CreateArticle.post createBody aliceSession demoDB
        (some (DBExc.integrityError "boom")) =
      ⟨Outcome.resp (Resp.jsonMsg 400 [("Error", PyVal.vstr "boom")]),
       aliceSession, demoDB, true⟩) ∧
    (SignUp.post signupBody freshSession emptyDB (some (DBExc.valueError "boom")) =
      ⟨Outcome.resp (Resp.jsonMsg 400 [("error", PyVal.vstr "boom")]),
       freshSession, emptyDB, false⟩) := by
  have h := C4_rollback_discipline createBody signupBody aliceSession freshSession
    demoDB emptyDB "boom" 1 aliceUser "bob" "bobpw"
    rfl (by decide) rfl rfl rfl rfl rfl (by decide) (by decide) rfl
  exact ⟨h.1, h.2.2.1⟩

/-- C4 counterexample: a signup whose commit raises `ValueError` returns
its 400 error response with `rolledBack = false`, and one whose commit
raises `IntegrityError` lets the exception escape, also without
rollback — the claim says both write endpoints roll back explicitly. -/
theorem C4_counterexample :
    (SignUp.post signupBody freshSession emptyDB
        (some (DBExc.valueError "hash failure"))).outcome =
      Outcome.resp (Resp.jsonMsg 400 [("error", PyVal.vstr "hash failure")]) ∧
    (SignUp.post signupBody freshSession emptyDB
        (some (DBExc.valueError "hash failure"))).rolledBack = false ∧
    (SignUp.post signupBody freshSession emptyDB
        (some (DBExc.integrityError "duplicate key"))).outcome =
      Outcome.exn "IntegrityError" "duplicate key" ∧
    (SignUp.post signupBody freshSession emptyDB
        (some (DBExc.integrityError "duplicate key"))).rolledBack = false :=
  ⟨rfl, rfl, rfl, rfl⟩

/-- C5: for `POST /login` with non-empty string credentials, an unknown
username and a known username with a failing password produce the same
outcome — the generic 401 `Invalid credentials` body — and neither
touches the session. -/
theorem C5_login_failure_indistinguishable
    (body1 body2 : Dict) (s1 s2 : SessionState) (db1 db2 : DB)
    (un1 pw1 un2 pw2 : String) (u : UserRec)
    (h1u : getKey? body1 "username" = some (PyVal.vstr un1))
    (h1p : getKey? body1 "password" = some (PyVal.vstr pw1))
    (h1n : un1 ≠ "") (h1m : pw1 ≠ "")
    (hnouser : db1.findUserByUsername un1 = Option.none)
    (h2u : getKey? body2 "username" = some (PyVal.vstr un2))
    (h2p : getKey? body2 "password" = some (PyVal.vstr pw2))
    (h2n : un2 ≠ "") (h2m : pw2 ≠ "")
    (huser : db2.findUserByUsername un2 = some u)
    (hbad : check_password_hash u.storedPasswordHash pw2 = false) :
    (Login.post body1 s1 db1).1 = (Login.post body2 s2 db2).1 ∧
    (Login.post body1 s1 db1).1 =
      Outcome.resp (Resp.jsonMsg 401 [("Error", PyVal.vstr "Invalid credentials")]) ∧
    (Login.post body1 s1 db1).2 = s1 ∧ (Login.post body2 s2 db2).2 = s2 := by
  have e1 : Login.post body1 s1 db1 =
      (Outcome.resp (Resp.jsonMsg 401 [("Error", PyVal.vstr "Invalid credentials")]), s1) := by
    simp [Login.post, h1u, h1p, hnouser, PyVal.truthy, h1n, h1m]
  have e2 : Login.post body2 s2 db2 =
      (Outcome.resp (Resp.jsonMsg 401 [("Error", PyVal.vstr "Invalid credentials")]), s2) := by
    simp [Login.post, h2u, h2p, huser, hbad, PyVal.truthy, h2n, h2m]
  rw [e1, e2]
  exact ⟨rfl, rfl, rfl, rfl⟩

/-- C5 witness: a login as the unknown `nobody` and a login as `alice`
with the wrong password produce the identical 401 outcome. -/
theorem C5_login_failure_indistinguishable_witness :
    (Login.post [("username", PyVal.vstr "nobody"), ("password", PyVal.vstr "x")]
        freshSession demoDB).1 =
      (Login.post [("username", PyVal.vstr "alice"), ("password", PyVal.vstr "wrong")]
        aliceSession demoDB).1 ∧
    (Login.post [("username", PyVal.vstr "nobody"), ("password", PyVal.vstr "x")]
        freshSession demoDB).1 =
      Outcome.resp (Resp.jsonMsg 401 [("Error", PyVal.vstr "Invalid credentials")]) := by
  have h := C5_login_failure_indistinguishable
    [("username", PyVal.vstr "nobody"), ("password", PyVal.vstr "x")]
    [("username", PyVal.vstr "alice"), ("password", PyVal.vstr "wrong")]
    freshSession aliceSession demoDB demoDB
    "nobody" "x" "alice" "wrong" aliceUser
    rfl rfl (by decide) (by decide) rfl rfl rfl (by decide) (by decide) rfl (by decide)
  exact ⟨h.1, h.2.1⟩

/-- C6: a signup for an already-taken username fails with `Conflict`
(409) before the try block, regardless of any commit exception, leaving
session and store untouched; and after a successful first signup for a
fresh username, a second identical signup gets 409, changes nothing,
and exactly one user record with that username exists. -/
theorem C6_duplicate_signup (body : Dict) (s : SessionState) (db : DB) (un pw : String)
    (hu : getKey? body "username" = some (PyVal.vstr un))
    (hp : getKey? body "password" = some (PyVal.vstr pw))
    (hn : un ≠ "") (hm : pw ≠ "") :
    (∀ u : UserRec, db.findUserByUsername un = some u → ∀ exc : Option DBExc,
        SignUp.post body s db exc =
          ⟨Outcome.resp (Resp.jsonMsg 409
            [("Error", PyVal.vstr "Username already exists")]), s, db, false⟩) ∧
    (db.findUserByUsername un = Option.none →
        (SignUp.post body s db Option.none).db.users =
          db.users ++ [{ id := db.nextUserId, username := un,
                         storedPasswordHash := generate_password_hash pw,
                         avatar := User.DEFAULT_AVATAR }] ∧
        SignUp.post body (SignUp.post body s db Option.none).session
            (SignUp.post body s db Option.none).db Option.none =
          ⟨Outcome.resp (Resp.jsonMsg 409
            [("Error", PyVal.vstr "Username already exists")]),
           (SignUp.post body s db Option.none).session,
           (SignUp.post body s db Option.none).db, false⟩ ∧
        ((SignUp.post body s db Option.none).db.users.filter
            (fun v => v.username == un)).length = 1) := by
  have hun : (PyVal.vstr un).truthy = true := by simp [PyVal.truthy, hn]
  have hpw : (PyVal.vstr pw).truthy = true := by simp [PyVal.truthy, hm]
  constructor
  · intro u hdup exc
    simp [SignUp.post, hu, hp, hun, hpw, hdup]
  · intro hfree
    have hr1 : SignUp.post body s db Option.none =
        ⟨Outcome.resp (Resp.jsonUser 201
          (UserRec.to_dict
            { db with
                users := db.users ++
                  [{ id := db.nextUserId, username := un,
                     storedPasswordHash := generate_password_hash pw,
                     avatar := User.DEFAULT_AVATAR }],
                nextUserId := db.nextUserId + 1 }
            { id := db.nextUserId, username := un,
              storedPasswordHash := generate_password_hash pw,
              avatar := User.DEFAULT_AVATAR })),
         { s with user_id := some db.nextUserId },
         { db with
             users := db.users ++
               [{ id := db.nextUserId, username := un,
                  storedPasswordHash := generate_password_hash pw,
                  avatar := User.DEFAULT_AVATAR }],
             nextUserId := db.nextUserId + 1 }, false⟩ := by
      simp [SignUp.post, hu, hp, hun, hpw, hfree]
    rw [hr1]
    have hfind2 :
        (DB.findUserByUsername
          { db with
              users := db.users ++
                [{ id := db.nextUserId, username := un,
                   storedPasswordHash := generate_password_hash pw,
                   avatar := User.DEFAULT_AVATAR }],
              nextUserId := db.nextUserId + 1 } un) =
          some { id := db.nextUserId, username := un,
                 storedPasswordHash := generate_password_hash pw,
                 avatar := User.DEFAULT_AVATAR } := by
      unfold DB.findUserByUsername at hfree ⊢
      rw [find?_append_of_none _ _ _ hfree]
      simp
    refine ⟨rfl, ?_, ?_⟩
    · simp [SignUp.post, hu, hp, hun, hpw, hfind2]
    · unfold DB.findUserByUsername at hfree
      simp [List.filter_append, filter_eq_nil_of_find?_none _ _ hfree]

/-- C6 witness: signing up `bob` twice from the empty store — the
second attempt returns 409 and exactly one `bob` record exists. -/
theorem C6_duplicate_signup_witness :
    SignUp.post signupBody (SignUp.post signupBody freshSession emptyDB Option.none).session
        (SignUp.post signupBody freshSession emptyDB Option.none).db Option.none =
      ⟨Outcome.resp (Resp.jsonMsg 409 [("Error", PyVal.vstr "Username already exists")]),
       (SignUp.post signupBody freshSession emptyDB Option.none).session,
       (SignUp.post signupBody freshSession emptyDB Option.none).db, false⟩ ∧
    ((SignUp.post signupBody freshSession emptyDB Option.none).db.users.filter
        (fun v => v.username == "bob")).length = 1 := by
  have h := (C6_duplicate_signup signupBody freshSession emptyDB "bob" "bobpw"
    rfl rfl (by decide) (by decide)).2 rfl
  exact ⟨h.2.1, h.2.2⟩

/-- C7 (amended): for an authenticated `POST /articles/create` with all
required fields, a supplied `tag` failing the membership test — which
includes a supplied `tag: null`, since `None` is not among the three
allowed strings — fails with 400 and creates nothing; when the `tag`
key is **omitted**, the article is persisted and its stored tag is the
column default `Engineering`. -/
theorem C7_tag_validation (body : Dict) (s : SessionState) (db : DB) (uid : Nat) (u : UserRec)
    (h1 : s.user_id = some uid) (h2 : uid ≠ 0)
    (h3 : db.findUserById uid = some u)
    (h4 : missingRequired body = false) :
    (invalidTag body = true →
        CreateArticle.post body s db Option.none =
          ⟨Outcome.resp (Resp.jsonMsg 400
            [("error", PyVal.vstr
              "Invalid tag. Allowed values: [\x27Product\x27, \x27Engineering\x27, \x27Design\x27]")]),
           s, db, false⟩) ∧
    (hasKey body "tag" = false →
        (CreateArticle.post body s db Option.none).db.articles =
          db.articles ++ [newArticle body db uid u] ∧
        (newArticle body db uid u).tag = "Engineering" ∧
        (CreateArticle.post body s db Option.none).outcome =
          Outcome.resp (Resp.jsonArticle 201
            ((newArticle body db uid u).to_dict
              (CreateArticle.post body s db Option.none).db))) := by
  have hau : optNatTruthy (some uid) = true := by simp [optNatTruthy, h2]
  constructor
  · intro hbad
    simp [CreateArticle.post, h1, hau, h3, h4, hbad]
  · intro hno
    have hiv : invalidTag body = false := by simp [invalidTag, hno]
    have htag : getKey? body "tag" = Option.none := by
      cases hg : getKey? body "tag" with
      | none => rfl
      | some v => simp [hasKey, hg] at hno
    refine ⟨?_, ?_, ?_⟩
    · simp [CreateArticle.post, h1, hau, h3, h4, hiv]
    · simp [newArticle, htag]
    · simp [CreateArticle.post, h1, hau, h3, h4, hiv]

/-- C7 witness: creating an article without a `tag` key persists it with
the default tag `Engineering`. -/
theorem C7_tag_validation_witness :
    (CreateArticle.post createBody aliceSession demoDB Option.none).db.articles =
      demoDB.articles ++ [newArticle createBody demoDB 1 aliceUser] ∧
    (newArticle createBody demoDB 1 aliceUser).tag = "Engineering" := by
  have h := (C7_tag_validation createBody aliceSession demoDB 1 aliceUser
    rfl (by decide) rfl rfl).2 rfl
  exact ⟨h.1, h.2.1⟩

/-- C7 counterexample: a body that carries `tag: null` is rejected with
400 and the store is unchanged, where the claim promised persistence
with the default `Engineering`. -/
theorem C7_counterexample :
    CreateArticle.post (createBody ++ [("tag", PyVal.vnone)]) aliceSession demoDB Option.none =
      ⟨Outcome.resp (Resp.jsonMsg 400
        [("error", PyVal.vstr
          "Invalid tag. Allowed values: [\x27Product\x27, \x27Engineering\x27, \x27Design\x27]")]),
       aliceSession, demoDB, false⟩ :=
  rfl

/-- C8: `GET /check_session` returns the serialized user with 200
exactly when the session `user_id` maps to an existing user record; a
missing id or an id of a since-deleted user yields the empty 401 body,
and after `/clear` or `/logout` the response is the empty 401, never
the previously logged-in user. -/
theorem C8_check_session (s : SessionState) (db : DB) :
    (∀ uid : Nat, ∀ u : UserRec, s.user_id = some uid →
        db.findUserById uid = some u →
        CheckSession.get s db = Resp.jsonUser 200 (u.to_dict db)) ∧
    (s.user_id = Option.none → CheckSession.get s db = Resp.jsonMsg 401 []) ∧
    (∀ uid : Nat, s.user_id = some uid → db.findUserById uid = Option.none →
        CheckSession.get s db = Resp.jsonMsg 401 []) ∧
    CheckSession.get (ClearSession.delete s).2 db = Resp.jsonMsg 401 [] ∧
    CheckSession.get (Logout.delete s).2 db = Resp.jsonMsg 401 [] := by
  refine ⟨?_, ?_, ?_, rfl, rfl⟩
  · intro uid u hid hfind
    simp [CheckSession.get, hid, hfind]
  · intro hid
    simp [CheckSession.get, hid]
  · intro uid hid hfind
    simp [CheckSession.get, hid, hfind]

/-- C8 witness: with a live session for `alice` the serialized user
comes back with 200, and immediately after `/clear` the same store
yields the empty 401. -/
theorem C8_check_session_witness :
    CheckSession.get aliceSession demoDB = Resp.jsonUser 200 (aliceUser.to_dict demoDB) ∧
    CheckSession.get (ClearSession.delete aliceSession).2 demoDB = Resp.jsonMsg 401 [] :=
  ⟨(C8_check_session aliceSession demoDB).1 1 aliceUser rfl rfl,
   (C8_check_session aliceSession demoDB).2.2.2.1⟩

/-- C9: for `POST /login` and `POST /signup`, a body missing the
`username` key (or missing `password` with `username` present) raises
an uncaught `KeyError` before any validation; the documented 400
`Username and password are required` response occurs exactly when both
keys are present and at least one value is falsy. -/
theorem C9_missing_credentials (body : Dict) (s : SessionState) (db : DB)
    (exc : Option DBExc) :
    (getKey? body "username" = Option.none →
        (Login.post body s db).1 = Outcome.exn "KeyError" "username" ∧
        (SignUp.post body s db exc).outcome = Outcome.exn "KeyError" "username") ∧
    (∀ v : PyVal, getKey? body "username" = some v →
        getKey? body "password" = Option.none →
        (Login.post body s db).1 = Outcome.exn "KeyError" "password" ∧
        (SignUp.post body s db exc).outcome = Outcome.exn "KeyError" "password") ∧
    ((Login.post body s db).1 =
        Outcome.resp (Resp.jsonMsg 400
          [("error", PyVal.vstr "Username and password are required")]) ↔
      ∃ v w : PyVal, getKey? body "username" = some v ∧
        getKey? body "password" = some w ∧
        (v.truthy = false ∨ w.truthy = false)) ∧
    ((SignUp.post body s db exc).outcome =
        Outcome.resp (Resp.jsonMsg 400
          [("Error", PyVal.vstr "Username and password are required")]) ↔
      ∃ v w : PyVal, getKey? body "username" = some v ∧
        getKey? body "password" = some w ∧
        (v.truthy = false ∨ w.truthy = false)) := by
  refine ⟨?_, ?_, ?_, ?_⟩
  · intro h
    exact ⟨by simp [Login.post, h], by simp [SignUp.post, h]⟩
  · intro v hv hw
    exact ⟨by simp [Login.post, hv, hw], by simp [SignUp.post, hv, hw]⟩
  · constructor
    · intro h
      cases hv : getKey? body "username" with
      | none => simp [Login.post, hv] at h
      | some v =>
        cases hw : getKey? body "password" with
        | none => simp [Login.post, hv, hw] at h
        | some w =>
          refine ⟨v, w, rfl, rfl, ?_⟩
          cases ht : (!v.truthy || !w.truthy) with
          | true => simpa using ht
          | false =>
            exfalso
            cases v with
            | vstr un =>
              cases hu : db.findUserByUsername un with
              | none => simp [Login.post, hv, hw, ht, hu] at h
              | some u =>
                cases w with
                | vstr pw =>
                  by_cases hc : check_password_hash u.storedPasswordHash pw = true
                  · simp [Login.post, hv, hw, ht, hu, hc] at h
                  · simp [Login.post, hv, hw, ht, hu, hc] at h
                | vint n => simp [Login.post, hv, hw, ht, hu] at h
                | vnone => simp [Login.post, hv, hw, ht, hu] at h
            | vint n => simp [Login.post, hv, hw, ht] at h
            | vnone => simp [PyVal.truthy] at ht
    · rintro ⟨v, w, hv, hw, hf | hf⟩
      · simp [Login.post, hv, hw, hf]
      · simp [Login.post, hv, hw, hf]
  · constructor
    · intro h
      cases hv : getKey? body "username" with
      | none => simp [SignUp.post, hv] at h
      | some v =>
        cases hw : getKey? body "password" with
        | none => simp [SignUp.post, hv, hw] at h
        | some w =>
          refine ⟨v, w, rfl, rfl, ?_⟩
          cases ht : (!v.truthy || !w.truthy) with
          | true => simpa using ht
          | false =>
            exfalso
            cases v with
            | vstr un =>
              cases hu : db.findUserByUsername un with
              | none =>
                cases exc with
                | none =>
                  cases w with
                  | vstr pw => simp [SignUp.post, hv, hw, ht, hu] at h
                  | vint n => simp [SignUp.post, hv, hw, ht, hu] at h
                  | vnone => simp [PyVal.truthy] at ht
                | some e =>
                  cases e with
                  | integrityError m => simp [SignUp.post, hv, hw, ht, hu] at h
                  | valueError m => simp [SignUp.post, hv, hw, ht, hu] at h
              | some u => simp [SignUp.post, hv, hw, ht, hu] at h
            | vint n =>
              cases exc with
              | none => simp [SignUp.post, hv, hw, ht] at h
              | some e =>
                cases e with
                | integrityError m => simp [SignUp.post, hv, hw, ht] at h
                | valueError m => simp [SignUp.post, hv, hw, ht] at h
            | vnone => simp [PyVal.truthy] at ht
    · rintro ⟨v, w, hv, hw, hf | hf⟩
      · simp [SignUp.post, hv, hw, hf]
      · simp [SignUp.post, hv, hw, hf]

/-- C9 witness: a login body lacking `username` and a signup body
lacking `password` each raise the corresponding `KeyError`; a body with
both keys but an empty password gets the 400. -/
theorem C9_missing_credentials_witness :
    (Login.post [("password", PyVal.vstr "pw")] freshSession emptyDB).1 =
      Outcome.exn "KeyError" "username" ∧
    (SignUp.post [("username", PyVal.vstr "bob")] freshSession emptyDB Option.none).outcome =
      Outcome.exn "KeyError" "password" ∧
    (Login.post [("username", PyVal.vstr "bob"), ("password", PyVal.vstr "")]
        freshSession emptyDB).1 =
      Outcome.resp (Resp.jsonMsg 400
        [("error", PyVal.vstr "Username and password are required")]) := by
  refine ⟨?_, ?_, ?_⟩
  · exact ((C9_missing_credentials [("password", PyVal.vstr "pw")] freshSession emptyDB
      Option.none).1 (by rfl)).1
  · exact ((C9_missing_credentials [("username", PyVal.vstr "bob")] freshSession emptyDB
      Option.none).2.1 (PyVal.vstr "bob") (by rfl) (by rfl)).2
  · exact (C9_missing_credentials
      [("username", PyVal.vstr "bob"), ("password", PyVal.vstr "")]
      freshSession emptyDB Option.none).2.2.1.mpr
      ⟨PyVal.vstr "bob", PyVal.vstr "", rfl, rfl, Or.inr (by decide)⟩

/-- C10: `POST /articles/create` with a truthy session `user_id` that
matches no user record returns 404 `User not found` with nothing
created, while a falsy session `user_id` returns 401 — two distinct
statuses. -/
theorem C10_user_not_found (body : Dict) (s s2 : SessionState) (db : DB)
    (uid : Nat) (exc : Option DBExc)
    (h1 : s.user_id = some uid) (h2 : uid ≠ 0)
    (h3 : db.findUserById uid = Option.none) :
    CreateArticle.post body s db exc =
      ⟨Outcome.resp (Resp.jsonMsg 404 [("Error", PyVal.vstr "User not found")]),
       s, db, false⟩ ∧
    (optNatTruthy s2.user_id = false →
        CreateArticle.post body s2 db exc =
          ⟨Outcome.resp (Resp.jsonMsg 401
            [("Error", PyVal.vstr "Unauthorized. Please log in")]), s2, db, false⟩) ∧
    (404 : Nat) ≠ 401 := by
  have hau : optNatTruthy (some uid) = true := by simp [optNatTruthy, h2]
  refine ⟨?_, ?_, by decide⟩
  · simp [CreateArticle.post, h1, hau, h3]
  · intro hfa
    simp [CreateArticle.post, hfa]

/-- C10 witness: a stale session pointing at the nonexistent user 5 gets
404 over `demoDB`; a fresh session gets 401. -/
theorem C10_user_not_found_witness :
    CreateArticle.post createBody
        { user_id := some 5, page_views := Option.none } demoDB Option.none =
      ⟨Outcome.resp (Resp.jsonMsg 404 [("Error", PyVal.vstr "User not found")]),
       { user_id := some 5, page_views := Option.none }, demoDB, false⟩ ∧
    CreateArticle.post createBody freshSession demoDB Option.none =
      ⟨Outcome.resp (Resp.jsonMsg 401
        [("Error", PyVal.vstr "Unauthorized. Please log in")]),
       freshSession, demoDB, false⟩ := by
  have h := C10_user_not_found createBody
    { user_id := some 5, page_views := Option.none } freshSession demoDB 5
    Option.none rfl (by decide) rfl
  exact ⟨h.1, h.2.1 rfl⟩

end Blog
